import Mathlib

/-!
Verification of the flo library's lazy expression-builder (flo/lamb.py),
pipeline composer (flo/pipeline.py), caching iterable (flo/it2.py) and
exception-as-value wrapper (flo/attempt.py), via a shallow embedding.

Modelling conventions:
 - Python exceptions are values of type Exc carrying the exception class
   name, the message, and the value passed as a second constructor
   argument (the re-wrapping code attaches the original exception there).
 - Pipeline elements live in the type PyVal.
 - A lazy, possibly failing enumeration is modelled as an EStream: the list
   of elements yielded before termination, paired with the exception (if
   any) raised when the consumer pulls past them.
 - Keyword-argument dicts are modelled as association lists from keyword
   name to the rendering of the value, in insertion order.
-/

/-- A Python exception value: class name, message, and the optional value
passed as a second positional constructor argument. -/
inductive Exc : Type where
  | mk (kind : String) (msg : String) (cause : Option Exc)

def Exc.kind : Exc → String
  | .mk k _ _ => k

def Exc.msg : Exc → String
  | .mk _ m _ => m

def Exc.cause : Exc → Option Exc
  | .mk _ _ c => c

/-- Python values flowing through pipelines. -/
inductive PyVal : Type where
  | int (n : Int)
  | str (s : String)
  | bool (b : Bool)
  | list (xs : List PyVal)

/-- A kwargs dict: keyword names paired with the repr of their values, in
insertion order. -/
abbrev Kwargs : Type := List (String × String)

/-- lamb.kwarg_str: renders a kwargs dict for display labels. -/
def kwarg_str (kwargs : Kwargs) : String :=
  if kwargs.isEmpty then ""
  else "(_, " ++ String.intercalate (", ") (kwargs.map (fun kv => kv.1 ++ "=" ++ kv.2)) ++ ")"

/-- ASCII whitespace, as stripped by str.lstrip and matched by regex \s. -/
def isSpaceChar (c : Char) : Bool :=
  c == ' ' || c == '\t' || c == '\n' || c == '\r' || c == '\x0b' || c == '\x0c'

/-- str.lstrip() restricted to ASCII whitespace. -/
def lstrip (s : String) : String :=
  ⟨s.data.dropWhile isSpaceChar⟩

/-! ## Expression nodes (lamb.Lambda)

A Lambda holds an optional parent, an optional accessor and a display name.
The public API only ever produces three shapes: the root (start: no parent,
no accessor), parentless nodes with an accessor (constant), and chained
nodes whose parent and accessor are both present. -/

inductive Lamb (α : Type) : Type where
  | root (name : String)
  | leaf (name : String) (accessor : α → α)
  | chain (parent : Lamb α) (name : String) (accessor : α → α)

/-- self._parent is not None and self._parent._accessor is not None, tested
on this node's parent field. -/
def Lamb.parentHasAccessor {α : Type} : Lamb α → Bool
  | .chain (.root _) _ _ => false
  | .chain _ _ _ => true
  | _ => false

/-- Lambda.invoke: if the parent exists and has an accessor, evaluate the
parent first and apply this node's accessor to the result; otherwise, with
an accessor present, apply it to the input; the bare root returns its
input. -/
def Lamb.invoke {α : Type} : Lamb α → α → α
  | .root _, x => x
  | .leaf _ f, x => f x
  | .chain p _ f, x =>
    match p with
    | .root _ => f x
    | .leaf n g => f ((Lamb.leaf n g : Lamb α).invoke x)
    | .chain q n g => f ((Lamb.chain q n g : Lamb α).invoke x)

/-- The accessors of a node chain, in parent-to-child order. -/
def Lamb.accessors {α : Type} : Lamb α → List (α → α)
  | .root _ => []
  | .leaf _ f => [f]
  | .chain p _ f => p.accessors ++ [f]

/-- Composition of a list of accessors, applied in order starting from x. -/
def composeChain {α : Type} (fs : List (α → α)) (x : α) : α :=
  fs.foldl (fun a f => f a) x

/-! ## Lazy enumeration streams

A lazy, possibly failing enumeration: the elements yielded before
termination, and the exception (if any) raised when the consumer pulls past
them. An upstream error is only observed by a downstream consumer that
actually pulls past the last yielded element. -/

/-- The elements an enumeration yields, and the exception raised past them
(none: clean termination). -/
abbrev EStream : Type := List PyVal × Option Exc

/-- The error a transform raises on its own elements preempts the upstream
error, which sits after all upstream elements. -/
def firstErr : Option Exc → Option Exc → Option Exc
  | some e, _ => some e
  | Option.none, u => u

/-- Generator expression (f(e) for e in it) over the elements of a list:
yields images until f raises. -/
def mapList (f : PyVal → Except Exc PyVal) : List PyVal → List PyVal × Option Exc
  | [] => ([], Option.none)
  | a :: as =>
    match f a with
    | .error e => ([], some e)
    | .ok b =>
      let r := mapList f as
      (b :: r.1, r.2)

/-- map's step, lambda it: (f(e, **kwargs) for e in it), lifted to streams:
the transform consumes every upstream element, so the upstream error is
reached unless an element-wise call raises first. -/
def mapStep (f : PyVal → Except Exc PyVal) : EStream → EStream
  | (xs, err) =>
    let r := mapList f xs
    (r.1, firstErr r.2 err)

/-- Generator expression (e for e in it if f(e)). -/
def filterList (f : PyVal → Except Exc Bool) : List PyVal → List PyVal × Option Exc
  | [] => ([], Option.none)
  | a :: as =>
    match f a with
    | .error e => ([], some e)
    | .ok true =>
      let r := filterList f as
      (a :: r.1, r.2)
    | .ok false => filterList f as

/-- filter's step, lambda it: (e for e in it if f(e, **kwargs)). -/
def filterStep (f : PyVal → Except Exc Bool) : EStream → EStream
  | (xs, err) =>
    let r := filterList f xs
    (r.1, firstErr r.2 err)

/-- exclude's step, lambda it: (e for e in it if not f(e, **kwargs)). -/
def excludeStep (f : PyVal → Except Exc Bool) : EStream → EStream :=
  filterStep (fun e => (f e).map (fun b => !b))

/-- Generator expression (e for ee in it for e in ee): a non-list element
raises TypeError when reached. -/
def flattenList : List PyVal → List PyVal × Option Exc
  | [] => ([], Option.none)
  | PyVal.list xs :: rest =>
    let r := flattenList rest
    (xs ++ r.1, r.2)
  | _ :: _ => ([], some (Exc.mk ("TypeError") ("object is not iterable") Option.none))

/-- flatten's step. -/
def flattenStep : EStream → EStream
  | (xs, err) =>
    let r := flattenList xs
    (r.1, firstErr r.2 err)

/-- zip(e, it): pulls the upstream first, then the other iterable; the
upstream error is only reached when zip pulls past the last upstream
element, i.e. when the other iterable is not the strictly shorter one. -/
def zipStep (other : List PyVal) : EStream → EStream
  | (xs, err) =>
    ((xs.zip other).map (fun p => PyVal.list [p.1, p.2]),
     if xs.length ≤ other.length then err else Option.none)

/-- itertools.chain(e, it): the other iterable is reached only after the
upstream terminated cleanly. -/
def chainStep (other : List PyVal) : EStream → EStream
  | (xs, err) =>
    match err with
    | Option.none => (xs ++ other, Option.none)
    | some e => (xs, some e)

/-- itertools.dropwhile(f, it): drops while f holds; consumes the whole
upstream, so the upstream error is reached unless f raises first. -/
def dropwhileList (f : PyVal → Except Exc Bool) : List PyVal → List PyVal × Option Exc
  | [] => ([], Option.none)
  | a :: as =>
    match f a with
    | .error e => ([], some e)
    | .ok true => dropwhileList f as
    | .ok false => (a :: as, Option.none)

def dropwhileStep (f : PyVal → Except Exc Bool) : EStream → EStream
  | (xs, err) =>
    let r := dropwhileList f xs
    (r.1, firstErr r.2 err)

/-- itertools.takewhile(f, it) on a list: the taken elements, the error f
raised (if any), and whether the whole input was consumed (only then can an
upstream error be reached). -/
def takewhileList (f : PyVal → Except Exc Bool) : List PyVal → List PyVal × Option Exc × Bool
  | [] => ([], Option.none, true)
  | a :: as =>
    match f a with
    | .error e => ([], some e, false)
    | .ok true =>
      let r := takewhileList f as
      (a :: r.1, r.2.1, r.2.2)
    | .ok false => ([], Option.none, false)

def takewhileStep (f : PyVal → Except Exc Bool) : EStream → EStream
  | (xs, err) =>
    let r := takewhileList f xs
    (r.1, match r.2.1 with
          | some e => some e
          | Option.none => if r.2.2 then err else Option.none)

/-! ## Pipeline (pipeline.Pipeline) -/

structure Pipeline : Type where
  label : String
  steps : List (EStream → EStream)

/-- pipeline(label=''): empty pipeline. -/
def pipeline (label : String) : Pipeline :=
  ⟨label, []⟩

/-- Pipeline._with: a new Pipeline with the label extended and one step
appended; the original is untouched. -/
def Pipeline.with_ (p : Pipeline) (additionalLabel : String) (additionalStep : EStream → EStream) :
    Pipeline :=
  ⟨p.label ++ " " ++ additionalLabel, p.steps ++ [additionalStep]⟩

/-- Pipeline.map. The mapper is an element function expecting the element
and a kwargs dict; the step calls f(e, **kwargs). The display name of the
mapper is passed in (as_name_function rendered it in the source). -/
def Pipeline.map (p : Pipeline) (name : String) (f : PyVal → Kwargs → Except Exc PyVal)
    (kwargs : Kwargs) : Pipeline :=
  p.with_ ("* " ++ name ++ kwarg_str kwargs) (mapStep (fun e => f e kwargs))

/-- Pipeline.filter. -/
def Pipeline.filter (p : Pipeline) (name : String) (f : PyVal → Kwargs → Except Exc Bool)
    (kwargs : Kwargs) : Pipeline :=
  p.with_ ("/ " ++ lstrip name ++ kwarg_str kwargs) (filterStep (fun e => f e kwargs))

/-- Pipeline.exclude. -/
def Pipeline.exclude (p : Pipeline) (name : String) (f : PyVal → Kwargs → Except Exc Bool)
    (kwargs : Kwargs) : Pipeline :=
  p.with_ ("/ not " ++ lstrip name ++ kwarg_str kwargs) (excludeStep (fun e => f e kwargs))

/-- Pipeline.flatten. -/
def Pipeline.flatten (p : Pipeline) : Pipeline :=
  p.with_ ("* flatten") flattenStep

/-- Pipeline.flatmap: self.map(mapper, **kwargs).flatten(). -/
def Pipeline.flatmap (p : Pipeline) (name : String) (f : PyVal → Kwargs → Except Exc PyVal)
    (kwargs : Kwargs) : Pipeline :=
  (p.map name f kwargs).flatten

/-- Pipeline.zip_with. tyName renders str(type(it)); the other iterable is
modelled as a list, hence Sized, so its length is printed. The label's
closing bracket is missing in the source, preserved here. -/
def Pipeline.zip_with (p : Pipeline) (tyName : String) (other : List PyVal) : Pipeline :=
  p.with_ ("zip(" ++ tyName ++ "[" ++ toString other.length ++ "]") (zipStep other)

/-- Pipeline.chain. -/
def Pipeline.chain (p : Pipeline) (tyName : String) (other : List PyVal) : Pipeline :=
  p.with_ ("chain(" ++ tyName ++ "[" ++ toString other.length ++ "]") (chainStep other)

/-- Pipeline.dropwhile. The source builds the step as
lambda it: dropwhile(f, it) -- the condition is called as f(e), WITHOUT the
kwargs, although the label renders them; calling a Python function without
keyword arguments is calling it with the empty kwargs dict. -/
def Pipeline.dropwhile (p : Pipeline) (name : String) (f : PyVal → Kwargs → Except Exc Bool)
    (kwargs : Kwargs) : Pipeline :=
  p.with_ ("dropwhile(" ++ lstrip name ++ kwarg_str kwargs) (dropwhileStep (fun e => f e []))

/-- Pipeline.takewhile; like dropwhile, the kwargs appear in the label but
are not passed to the condition. -/
def Pipeline.takewhile (p : Pipeline) (name : String) (f : PyVal → Kwargs → Except Exc Bool)
    (kwargs : Kwargs) : Pipeline :=
  p.with_ ("takewhile(" ++ lstrip name ++ kwarg_str kwargs) (takewhileStep (fun e => f e []))

/-- The loop: for step in self.steps: transformed = step(transformed). -/
def runSteps (steps : List (EStream → EStream)) (s : EStream) : EStream :=
  steps.foldl (fun acc step => step acc) s

/-- The message of the re-wrapped enumeration exception. At raise time the
enumerate counter n still holds the index of the LAST successfully yielded
element, so n + 1 equals the number of elements already yielded, i.e. the
zero-based index of the failing element; the argument here is that count. -/
def failMsg (count : Nat) (label : String) : String :=
  "Failed to iterate to item " ++ toString count ++ " in flo.Pipeline(" ++ label ++ ")"

/-- The message C2 predicts: the failing element's 1-based position, for a
failing element at zero-based index n. (Spec-side definition, for
comparison with failMsg.) -/
def failMsgClaimed (n : Nat) (label : String) : String :=
  "Failed to iterate to item " ++ toString (n + 1) ++ " in flo.Pipeline(" ++ label ++ ")"

/-- Pipeline.apply: runs the steps and enumerates; an exception raised
while enumerating is re-raised with the same kind, a message naming the
position and the full label, and the original exception attached as the
second constructor argument. Elements yielded before the failure have
already reached the caller. -/
def Pipeline.apply (p : Pipeline) (src : List PyVal) : EStream :=
  match runSteps p.steps (src, Option.none) with
  | (elems, Option.none) => (elems, Option.none)
  | (elems, some e) =>
    (elems, some (Exc.mk e.kind (failMsg elems.length p.label) (some e)))

/-! ## TerminatedPipeline and collect -/

structure TerminatedPipeline : Type where
  label : String
  pipeline : Pipeline
  transform : List PyVal → Except Exc PyVal

/-- The aggregation chain built by collect: fcn = e_.apply(f, **kwargs)
then fcn = fcn.apply(as_fcn(c)) for each further collector; invoking it on
the piped sequence computes cn(...c1(c0(piped, **kwargs))...). Only the
first collector receives the kwargs. -/
def chainCollectors (c0 : List PyVal → Kwargs → Except Exc PyVal)
    (cs : List (PyVal → Except Exc PyVal)) (kwargs : Kwargs)
    (xs : List PyVal) : Except Exc PyVal :=
  cs.foldl (fun acc c => acc.bind c) (c0 xs kwargs)

/-- Pipeline.collect. -/
def Pipeline.collect (p : Pipeline) (name : String)
    (c0 : List PyVal → Kwargs → Except Exc PyVal)
    (cs : List (PyVal → Except Exc PyVal)) (kwargs : Kwargs) : TerminatedPipeline :=
  ⟨p.label ++ " " ++ ("> " ++ (name ++ kwarg_str kwargs)), p, chainCollectors c0 cs kwargs⟩

/-- TerminatedPipeline.__call__: piped = self.pipeline(it), then
self.transform(piped). The aggregator drains the piped stream, so a failing
stream surfaces its (already wrapped) exception instead of a value. -/
def TerminatedPipeline.call (tp : TerminatedPipeline) (src : List PyVal) : Except Exc PyVal :=
  match tp.pipeline.apply src with
  | (xs, Option.none) => tp.transform xs
  | (_, some e) => .error e

/-! ## CachingIt (it2.CachingIt)

The upstream It is re-enumerated each time CachingIt pulls it, and may be
non-deterministic (user functions may use randomness), so it is modelled as
a family of enumeration results indexed by how many times the upstream has
been run so far. -/

structure CachingIt : Type where
  cache : List PyVal
  runs : Nat

def CachingIt.init : CachingIt := ⟨[], 0⟩

/-- CachingIt.__iter__: a non-empty cache is replayed; otherwise the
upstream is enumerated, each element appended to the cache and yielded; on
an upstream exception the bare except clause clears the cache and the
generator returns, so the exception is swallowed and the caller sees the
partial sequence end cleanly. -/
def CachingIt.iter (src : Nat → EStream) (c : CachingIt) : EStream × CachingIt :=
  if c.cache.isEmpty then
    match src c.runs with
    | (xs, Option.none) => ((xs, Option.none), ⟨xs, c.runs + 1⟩)
    | (xs, some _) => ((xs, Option.none), ⟨[], c.runs + 1⟩)
  else ((c.cache, Option.none), c)

/-! ## Attempt (attempt.Attempt) -/

/-- Attempt: _result and _exception fields, each UNASSIGNED (none) or set. -/
structure Attempt : Type where
  _result : Option PyVal
  _exception : Option Exc

/-- Attempt.succeeded: self._result is not UNASSIGNED. -/
def Attempt.succeeded (a : Attempt) : Bool := a._result.isSome

/-- Attempt.failed: self._exception is not UNASSIGNED. -/
def Attempt.failed (a : Attempt) : Bool := a._exception.isSome

/-- Attempt.result: returns the payload, or re-raises the captured
exception; raise UNASSIGNED (when neither is set) is a TypeError. -/
def Attempt.result (a : Attempt) : Except Exc PyVal :=
  match a._result with
  | some v => .ok v
  | Option.none =>
    match a._exception with
    | some e => .error e
    | Option.none =>
      .error (Exc.mk ("TypeError") ("exceptions must derive from BaseException") Option.none)

/-- try_(fcn, *args, **kwargs): invokes the function, capturing the return
value or the raised exception. -/
def try_ (f : PyVal → Kwargs → Except Exc PyVal) (arg : PyVal) (kwargs : Kwargs) : Attempt :=
  match f arg kwargs with
  | .ok v => ⟨some v, Option.none⟩
  | .error e => ⟨Option.none, some e⟩

/-! ## between (lamb.Lambda.between / lamb.interpret_between)

The numeric domain is modelled as the rationals: Python compares the floats
that float() parses from the interval string against the probe with the
same order as the exact values, for the representable inputs the claims
exercise. -/

/-- The character class [0-9._] of the bound groups of the interval regex. -/
def isBoundChar (c : Char) : Bool :=
  c.isDigit || c == '.' || c == '_'

/-- Matching \s* : drop ASCII whitespace. -/
def dropSpaces (cs : List Char) : List Char :=
  cs.dropWhile isSpaceChar

/-- Matching ([0-9._]+) greedily (the next regex atom is never a bound
character, so greedy matching never backtracks). -/
def parseBound (cs : List Char) : Option (List Char × List Char) :=
  let d := cs.takeWhile isBoundChar
  if d.isEmpty then Option.none else some (d, cs.dropWhile isBoundChar)

/-- re.fullmatch of the interval regex
\s*([[(])\s*([0-9._]+)\s*,\s*([0-9._]+)\s*([])])\s* :
returns (left bracket is [, left bound group, right bound group,
right bracket is ]). -/
def matchBetween (cs : List Char) : Option (Bool × List Char × List Char × Bool) :=
  match dropSpaces cs with
  | [] => Option.none
  | b1 :: r1 =>
    if b1 == '[' || b1 == '(' then
      match parseBound (dropSpaces r1) with
      | Option.none => Option.none
      | some (d1, r2) =>
        match dropSpaces r2 with
        | ',' :: r3 =>
          match parseBound (dropSpaces r3) with
          | Option.none => Option.none
          | some (d2, r4) =>
            match dropSpaces r4 with
            | b2 :: r5 =>
              if (b2 == ']' || b2 == ')') && (dropSpaces r5).isEmpty then
                some (b1 == '[', d1, d2, b2 == ']')
              else Option.none
            | [] => Option.none
        | _ => Option.none
    else Option.none

/-- Decimal value of a digit string. -/
def digitsVal (cs : List Char) : Nat :=
  cs.foldl (fun acc c => acc * 10 + (c.toNat - 48)) 0

/-- Value of a fractional digit string. -/
def fracVal (cs : List Char) : ℚ :=
  (digitsVal cs : ℚ) / (10 : ℚ) ^ cs.length

/-- PEP 515: in a float literal every underscore must stand directly
between two digits. The first argument is the previous character. -/
def underscoresOkAux : Option Char → List Char → Bool
  | _, [] => true
  | prev, c :: rest =>
    if c == '_' then
      (match prev with
       | some p => p.isDigit
       | Option.none => false)
      && (match rest.head? with
          | some n => n.isDigit
          | Option.none => false)
      && underscoresOkAux (some c) rest
    else underscoresOkAux (some c) rest

def underscoresOk (cs : List Char) : Bool :=
  underscoresOkAux Option.none cs

/-- float() on a string over [0-9.] (underscores already stripped): an
optional integer part, an optional single dot and fractional part, at
least one digit overall. No sign or exponent can occur in the regex's
character class. -/
def parseFloatCore (cs : List Char) : Option ℚ :=
  let ip := cs.takeWhile Char.isDigit
  let rest := cs.dropWhile Char.isDigit
  match rest with
  | [] => if ip.isEmpty then Option.none else some (digitsVal ip : ℚ)
  | '.' :: fp =>
    if fp.all Char.isDigit && !(ip.isEmpty && fp.isEmpty) then
      some ((digitsVal ip : ℚ) + fracVal fp)
    else Option.none
  | _ => Option.none

/-- float() on a bound group of the interval regex. -/
def pyFloat (cs : List Char) : Option ℚ :=
  if underscoresOk cs then parseFloatCore (cs.filter (fun c => c != '_')) else Option.none

/-- The shapes of the first argument of between: a scalar, an interval
string, a two-element tuple, a two-element list. -/
inductive BetweenLeft : Type where
  | scalar (x : ℚ)
  | strForm (s : String)
  | tupleForm (l r : ℚ)
  | listForm (l r : ℚ)

/-- lamb.interpret_between. When right is UNASSIGNED (none): a string is
parsed with the interval regex and float(); a tuple means both ends
exclusive; a list means both ends inclusive; anything else is a
ValueError. When right is given the arguments pass through unchanged; the
source returns a non-scalar left as-is and the numeric comparison inside
between then raises, which this typed model surfaces here as the
TypeError. -/
def interpret_between (left : BetweenLeft) (right : Option ℚ)
    (left_inclusive right_inclusive : Bool) : Except Exc (ℚ × ℚ × Bool × Bool) :=
  match right with
  | Option.none =>
    match left with
    | .strForm s =>
      match matchBetween s.data with
      | Option.none =>
        .error (Exc.mk ("ValueError") ("Unrecognized between spec '" ++ s ++ "'") Option.none)
      | some (lb, d1, d2, rb) =>
        match pyFloat d1, pyFloat d2 with
        | some l, some r => .ok (l, r, lb, rb)
        | _, _ =>
          .error (Exc.mk ("ValueError") ("could not convert string to float") Option.none)
    | .tupleForm l r => .ok (l, r, false, false)
    | .listForm l r => .ok (l, r, true, true)
    | .scalar _ =>
      .error (Exc.mk ("ValueError")
        ("right not specified but first argument isn't str, list, or tuple") Option.none)
  | some r =>
    match left with
    | .scalar l => .ok (l, r, left_inclusive, right_inclusive)
    | _ => .error (Exc.mk ("TypeError") ("unorderable non-scalar left bound") Option.none)

/-- Lambda.between: interpret the arguments, then build the accessor of the
new node, one of the four comparison combinations. -/
def betweenPred (left : BetweenLeft) (right : Option ℚ)
    (left_inclusive right_inclusive : Bool) : Except Exc (ℚ → Bool) :=
  match interpret_between left right left_inclusive right_inclusive with
  | .error e => .error e
  | .ok (l, r, li, ri) =>
    if li then
      if ri then .ok (fun e => decide (l ≤ e) && decide (e ≤ r))
      else .ok (fun e => decide (l ≤ e) && decide (e < r))
    else
      if ri then .ok (fun e => decide (l < e) && decide (e ≤ r))
      else .ok (fun e => decide (l < e) && decide (e < r))

/-- The interval string the claims render from brackets and bound groups,
for example [2,10) . -/
def intervalChars (a b : Bool) (d1 d2 : List Char) : List Char :=
  (if a then '[' else '(') :: (d1 ++ ',' :: (d2 ++ [if b then ']' else ')']))

def intervalString (a b : Bool) (d1 d2 : List Char) : String :=
  ⟨intervalChars a b d1 d2⟩

/-! ## Concrete inputs used by counterexamples and code_bug evaluations -/

/-- An upstream whose first run yields nothing and terminates cleanly, and
whose later runs yield one element: a legal non-deterministic source. -/
def c5src : Nat → EStream :=
  fun n => if n = 0 then ([], Option.none) else ([PyVal.int 1], Option.none)

/-- An upstream that yields one element and then raises ValueError. -/
def c8src : Nat → EStream :=
  fun _ => ([PyVal.int 1], some (Exc.mk ("ValueError") ("boom") Option.none))

/-- A condition whose truth value depends on whether it received any
keyword arguments. -/
def kwProbe : PyVal → Kwargs → Except Exc Bool :=
  fun _ kw => .ok (!kw.isEmpty)

/-- An element function that always raises ValueError. -/
def alwaysRaise : PyVal → Kwargs → Except Exc PyVal :=
  fun _ _ => .error (Exc.mk ("ValueError") ("boom") Option.none)

/-- A deterministic upstream: every run yields the single element 2. -/
def c5goodsrc : Nat → EStream :=
  fun _ => ([PyVal.int 2], Option.none)

/-- The identity element function. -/
def c7f : PyVal → Kwargs → Except Exc PyVal :=
  fun v _ => .ok v

/-- An element function incrementing an integer element. -/
def c6inc : PyVal → Kwargs → Except Exc PyVal :=
  fun v _ =>
    match v with
    | PyVal.int n => .ok (PyVal.int (n + 1))
    | _ => .error (Exc.mk ("TypeError") ("unsupported operand") Option.none)

/-- An aggregator combining the drained length with the kwargs count. -/
def c6agg : List PyVal → Kwargs → Except Exc PyVal :=
  fun xs kw => .ok (PyVal.int (Int.ofNat xs.length + Int.ofNat kw.length))

/-- A post-processing aggregator wrapping its input in a list. -/
def c6wrap : PyVal → Except Exc PyVal :=
  fun v => .ok (PyVal.list [v])

/-! ## Theorems -/

/-- Evaluating a chained node applies its accessor to its parent's
evaluation, for every parent shape (the source skips the recursive call
when the parent is the accessor-less root and applies the accessor to the
input directly, which coincides with evaluating the root first). -/
theorem Lamb.invoke_chain_eq {α : Type} (p : Lamb α) (nm : String) (f : α → α) (x : α) :
    (Lamb.chain p nm f).invoke x = f (p.invoke x) := by
  cases p <;> rfl

/-- C1: invoking an expression-node chain on x composes the accessors in
parent-to-child order starting from x; the root returns x unchanged, and a
node whose parent is the root applies only its own accessor. -/
theorem c1_invoke_is_composition {α : Type} (l : Lamb α) (x : α) (nm nm2 : String)
    (f : α → α) :
    l.invoke x = composeChain l.accessors x
    ∧ (Lamb.root nm : Lamb α).invoke x = x
    ∧ (Lamb.chain (Lamb.root nm) nm2 f).invoke x = f x := by
  refine ⟨?_, rfl, rfl⟩
  induction l with
  | root n => rfl
  | leaf n g => rfl
  | chain p n g ih =>
    rw [Lamb.invoke_chain_eq]
    show g (p.invoke x) = composeChain (p.accessors ++ [g]) x
    unfold composeChain
    rw [List.foldl_append, ih]
    rfl

/-- C4: every builder operation returns a new Pipeline whose step sequence
is the original's with exactly one step appended (two for flatmap) and
whose label extends the original's label; the original Pipeline value is
unchanged (functional update). -/
theorem c4_builders_append_one_step (p : Pipeline) (name tyName : String)
    (f : PyVal → Kwargs → Except Exc PyVal) (g : PyVal → Kwargs → Except Exc Bool)
    (kwargs : Kwargs) (other : List PyVal) :
    ((p.map name f kwargs).steps = p.steps ++ [mapStep (fun e => f e kwargs)]
      ∧ (p.map name f kwargs).label = p.label ++ " " ++ ("* " ++ name ++ kwarg_str kwargs))
    ∧ ((p.filter name g kwargs).steps = p.steps ++ [filterStep (fun e => g e kwargs)]
      ∧ (p.filter name g kwargs).label
          = p.label ++ " " ++ ("/ " ++ lstrip name ++ kwarg_str kwargs))
    ∧ ((p.exclude name g kwargs).steps = p.steps ++ [excludeStep (fun e => g e kwargs)]
      ∧ (p.exclude name g kwargs).label
          = p.label ++ " " ++ ("/ not " ++ lstrip name ++ kwarg_str kwargs))
    ∧ (p.flatten.steps = p.steps ++ [flattenStep]
      ∧ p.flatten.label = p.label ++ " " ++ "* flatten")
    ∧ ((p.flatmap name f kwargs).steps
          = p.steps ++ [mapStep (fun e => f e kwargs), flattenStep]
      ∧ (p.flatmap name f kwargs).label
          = p.label ++ " " ++ ("* " ++ name ++ kwarg_str kwargs) ++ " " ++ "* flatten")
    ∧ ((p.zip_with tyName other).steps = p.steps ++ [zipStep other]
      ∧ (p.zip_with tyName other).label
          = p.label ++ " " ++ ("zip(" ++ tyName ++ "[" ++ toString other.length ++ "]"))
    ∧ ((p.chain tyName other).steps = p.steps ++ [chainStep other]
      ∧ (p.chain tyName other).label
          = p.label ++ " " ++ ("chain(" ++ tyName ++ "[" ++ toString other.length ++ "]"))
    ∧ ((p.dropwhile name g kwargs).steps = p.steps ++ [dropwhileStep (fun e => g e [])]
      ∧ (p.dropwhile name g kwargs).label
          = p.label ++ " " ++ ("dropwhile(" ++ lstrip name ++ kwarg_str kwargs))
    ∧ ((p.takewhile name g kwargs).steps = p.steps ++ [takewhileStep (fun e => g e [])]
      ∧ (p.takewhile name g kwargs).label
          = p.label ++ " " ++ ("takewhile(" ++ lstrip name ++ kwarg_str kwargs)) := by
  refine ⟨⟨rfl, rfl⟩, ⟨rfl, rfl⟩, ⟨rfl, rfl⟩, ⟨rfl, rfl⟩, ⟨?_, rfl⟩, ⟨rfl, rfl⟩,
    ⟨rfl, rfl⟩, ⟨rfl, rfl⟩, ⟨rfl, rfl⟩⟩
  show (p.steps ++ [mapStep (fun e => f e kwargs)]) ++ [flattenStep] = _
  rw [List.append_assoc]
  rfl

/-- C2 counterexample: a map step that raises on the very first source
element (zero-based position 0, 1-based position 1). The wrapped message
names position 0 and contains no character 1 at all, so it does not state
the 1-based position the claim predicts. -/
theorem c2_counterexample :
    (((pipeline ("src")).map ("f") alwaysRaise []).apply [PyVal.int 7]).2
      = some (Exc.mk ("ValueError") ("Failed to iterate to item 0 in flo.Pipeline(src * f)")
          (some (Exc.mk ("ValueError") ("boom") Option.none)))
    ∧ ("Failed to iterate to item 0 in flo.Pipeline(src * f)").data.contains '1' = false
    ∧ ("Failed to iterate to item 0 in flo.Pipeline(src * f)")
        ≠ failMsgClaimed 0 ("src * f") := by
  exact ⟨rfl, by decide, by decide⟩

/-- C2 (amended): when enumerating a pipeline over a source fails after
yielding elems, the enumeration re-raises an exception of the same kind
whose message states the failing element's ZERO-based position (the count
of elements already yielded, not the 1-based position) and the pipeline's
full label, with the original exception attached; the elements yielded
before the failure reach the caller unchanged. -/
theorem c2_amended_zero_based (p : Pipeline) (src elems : List PyVal) (e : Exc)
    (h : runSteps p.steps (src, Option.none) = (elems, some e)) :
    p.apply src = (elems, some (Exc.mk e.kind (failMsg elems.length p.label) (some e))) := by
  unfold Pipeline.apply
  rw [h]

theorem c2_witness :
    ((pipeline ("src")).map ("f") alwaysRaise []).apply [PyVal.int 7]
      = ([], some (Exc.mk ("ValueError")
          ("Failed to iterate to item 0 in flo.Pipeline(src * f)")
          (some (Exc.mk ("ValueError") ("boom") Option.none)))) :=
  c2_amended_zero_based ((pipeline ("src")).map ("f") alwaysRaise []) [PyVal.int 7] []
    (Exc.mk ("ValueError") ("boom") Option.none) rfl

/-- C7: try_ produces a wrapper holding exactly one of a payload or an
exception; the payload when the function returned, the exception when it
raised; result() returns the payload on the success branch and re-raises
the captured exception on the failure branch. -/
theorem c7_attempt_exactly_one (f : PyVal → Kwargs → Except Exc PyVal) (arg : PyVal)
    (kw : Kwargs) :
    (((try_ f arg kw).succeeded = true ∧ (try_ f arg kw).failed = false)
      ∨ ((try_ f arg kw).succeeded = false ∧ (try_ f arg kw).failed = true))
    ∧ (∀ v : PyVal, f arg kw = .ok v →
        try_ f arg kw = ⟨some v, Option.none⟩ ∧ (try_ f arg kw).result = .ok v)
    ∧ (∀ e : Exc, f arg kw = .error e →
        try_ f arg kw = ⟨Option.none, some e⟩ ∧ (try_ f arg kw).result = .error e) := by
  cases hf : f arg kw with
  | ok v =>
    refine ⟨Or.inl ?_, ?_, ?_⟩
    · constructor <;> simp [try_, hf, Attempt.succeeded, Attempt.failed]
    · intro v' hv
      injection hv with hv'
      subst hv'
      constructor <;> simp [try_, hf, Attempt.result]
    · intro e he
      exact Except.noConfusion he
  | error e =>
    refine ⟨Or.inr ?_, ?_, ?_⟩
    · constructor <;> simp [try_, hf, Attempt.succeeded, Attempt.failed]
    · intro v hv
      exact Except.noConfusion hv
    · intro e' he
      injection he with he'
      subst he'
      constructor <;> simp [try_, hf, Attempt.result]

theorem c7_witness :
    try_ c7f (PyVal.int 3) [] = ⟨some (PyVal.int 3), Option.none⟩
    ∧ (try_ c7f (PyVal.int 3) []).result = .ok (PyVal.int 3) :=
  (c7_attempt_exactly_one c7f (PyVal.int 3) []).2.1 (PyVal.int 3) rfl

/-- C8: the caching wrapper does NOT propagate an upstream exception. Over
an upstream that yields one element and then raises ValueError, the
wrapper's enumeration yields that element and terminates cleanly (no
exception in the output stream): the bare except clause clears the cache
and swallows the error, contradicting the stated propagation policy. -/
theorem c8_caching_swallows :
    (c8src 0).2 = some (Exc.mk ("ValueError") ("boom") Option.none)
    ∧ CachingIt.iter c8src CachingIt.init = (([PyVal.int 1], Option.none), ⟨[], 1⟩) :=
  ⟨rfl, rfl⟩

/-- C9: dropwhile and takewhile do NOT forward their keyword arguments to
the condition. kwProbe is true exactly when it receives a non-empty kwargs
dict; with kwargs supplied, the built dropwhile step keeps the first
element (the condition was called without the kwargs, so it returned
false) and takewhile takes nothing, while the label still renders the
kwargs; map, by contrast, does forward them. -/
theorem c9_dropwhile_ignores_kwargs :
    ((pipeline ("src")).dropwhile ("cond") kwProbe [("flag", "True")]).apply [PyVal.int 1]
      = ([PyVal.int 1], Option.none)
    ∧ ((pipeline ("src")).takewhile ("cond") kwProbe [("flag", "True")]).apply [PyVal.int 1]
      = ([], Option.none)
    ∧ kwProbe (PyVal.int 1) [("flag", "True")] = .ok true
    ∧ kwProbe (PyVal.int 1) [] = .ok false
    ∧ ((pipeline ("src")).dropwhile ("cond") kwProbe [("flag", "True")]).label
      = "src dropwhile(cond(_, flag=True)"
    ∧ ((pipeline ("src")).map ("m")
          (fun _ kw => .ok (PyVal.bool (!kw.isEmpty))) [("flag", "True")]).apply [PyVal.int 1]
      = ([PyVal.bool true], Option.none) := by
  exact ⟨rfl, rfl, rfl, rfl, rfl, rfl⟩

/-- C5 counterexample: a complete (exception-free) first enumeration that
yields no elements leaves the cache empty, so the second enumeration
re-runs the (non-deterministic) upstream and yields a different sequence,
against the claim that every enumeration after a complete one replays the
buffer. -/
theorem c5_counterexample :
    (CachingIt.iter c5src CachingIt.init).1 = ([], Option.none)
    ∧ (CachingIt.iter c5src ((CachingIt.iter c5src CachingIt.init).2)).1
        = ([PyVal.int 1], Option.none)
    ∧ ([] : List PyVal) ≠ [PyVal.int 1] := by
  exact ⟨rfl, rfl, fun h => List.noConfusion h⟩

/-- C5 (amended): after one complete enumeration that produced at least one
element, every subsequent enumeration replays the buffer and yields the
identical sequence without re-running the upstream (the state is a
fixpoint, runs counter included); a complete enumeration yielding no
elements leaves the cache empty. If the first enumeration is interrupted
by an upstream exception, the partial buffer is discarded, so the next
enumeration re-runs the upstream computation from scratch (its fresh run)
rather than serving a partial cache. -/
theorem c5_amended_cache (src : Nat → EStream) (c : CachingIt) (xs : List PyVal) (e : Exc) :
    (c.cache = [] → src c.runs = (xs, Option.none) → xs ≠ [] →
      CachingIt.iter src c = ((xs, Option.none), ⟨xs, c.runs + 1⟩)
      ∧ CachingIt.iter src ⟨xs, c.runs + 1⟩ = ((xs, Option.none), ⟨xs, c.runs + 1⟩))
    ∧ (c.cache = [] → src c.runs = (xs, some e) →
      CachingIt.iter src c = ((xs, Option.none), ⟨[], c.runs + 1⟩)
      ∧ (CachingIt.iter src ⟨[], c.runs + 1⟩).1.1 = (src (c.runs + 1)).1) := by
  constructor
  · intro h1 h2 h3
    constructor
    · simp [CachingIt.iter, h1, h2]
    · have hne : xs.isEmpty = false := by
        cases xs with
        | nil => exact absurd rfl h3
        | cons y ys => rfl
      simp [CachingIt.iter, hne]
  · intro h1 h2
    constructor
    · simp [CachingIt.iter, h1, h2]
    · rcases hs : src (c.runs + 1) with ⟨ys, er⟩
      cases er <;> simp [CachingIt.iter, hs]

theorem c5_witness :
    CachingIt.iter c5goodsrc CachingIt.init
      = (([PyVal.int 2], Option.none), ⟨[PyVal.int 2], 1⟩)
    ∧ CachingIt.iter c5goodsrc ⟨[PyVal.int 2], 1⟩
      = (([PyVal.int 2], Option.none), ⟨[PyVal.int 2], 1⟩) :=
  (c5_amended_cache c5goodsrc CachingIt.init [PyVal.int 2]
      (Exc.mk ("x") ("x") Option.none)).1 rfl rfl (fun h => List.noConfusion h)

/-- C6: collect produces a terminated pipeline over the same Pipeline;
called on a source whose pipeline enumeration succeeds with output xs, it
computes the aggregation chain cn(...c1(c0(xs, **kwargs))...): the kwargs
go only to the first aggregator, each later aggregator receives exactly
the previous aggregator's single output, and the result is that single
value. -/
theorem c6_collect_chains (p : Pipeline) (name : String)
    (c0 : List PyVal → Kwargs → Except Exc PyVal) (cs : List (PyVal → Except Exc PyVal))
    (kw : Kwargs) (src xs : List PyVal)
    (h : p.apply src = (xs, Option.none)) :
    (p.collect name c0 cs kw).pipeline = p
    ∧ (p.collect name c0 cs kw).call src
        = cs.foldl (fun acc c => acc.bind c) (c0 xs kw) := by
  refine ⟨rfl, ?_⟩
  unfold TerminatedPipeline.call Pipeline.collect
  rw [h]
  rfl

theorem c6_witness :
    (((pipeline ("src")).map ("inc") c6inc []).collect ("agg") c6agg [c6wrap]
        [("a", "1")]).call [PyVal.int 1, PyVal.int 2]
      = .ok (PyVal.list [PyVal.int 3]) := by
  have h := (c6_collect_chains ((pipeline ("src")).map ("inc") c6inc []) ("agg") c6agg
    [c6wrap] [("a", "1")] [PyVal.int 1, PyVal.int 2] [PyVal.int 2, PyVal.int 3] rfl).2
  rw [h]
  rfl

/-- A successfully matched bound group is a takeWhile of the bound
character class, hence all its characters belong to that class. -/
theorem parseBound_all (cs d r : List Char) (h : parseBound cs = some (d, r)) :
    d.all isBoundChar = true := by
  simp only [parseBound] at h
  split at h
  · exact Option.noConfusion h
  · injection h with h'
    rw [Prod.mk.injEq] at h'
    rw [← h'.1]
    exact List.all_eq_true.mpr (fun c hc => List.mem_takeWhile_imp hc)

/-- Both bound groups of a successful interval-regex match consist of
characters from [0-9._]. -/
theorem matchBetween_bounds (cs : List Char) (lb rb : Bool) (d1 d2 : List Char)
    (h : matchBetween cs = some (lb, d1, d2, rb)) :
    d1.all isBoundChar = true ∧ d2.all isBoundChar = true := by
  unfold matchBetween at h
  split at h
  · exact Option.noConfusion h
  split at h
  · split at h
    · exact Option.noConfusion h
    · rename_i hp1
      split at h
      · split at h
        · exact Option.noConfusion h
        · rename_i hp2
          split at h
          · split at h
            · injection h with h'
              rw [Prod.mk.injEq] at h'
              obtain ⟨h1, h2⟩ := h'
              rw [Prod.mk.injEq] at h2
              obtain ⟨h21, h22⟩ := h2
              rw [Prod.mk.injEq] at h22
              exact ⟨h21 ▸ parseBound_all _ _ _ hp1, h22.1 ▸ parseBound_all _ _ _ hp2⟩
            · exact Option.noConfusion h
          · exact Option.noConfusion h
      · exact Option.noConfusion h
  · exact Option.noConfusion h

/-- C10: a single string argument is parsed by the interval regex, whose
bound groups match only the character class of digits, dots and
underscores; each accepted bound is converted by float(); consequently an
interval string with a negative bound, such as [-2,10), fails the match
and is rejected with a ValueError naming the offending input. -/
theorem c10_negative_bound_rejected :
    (∀ (cs : List Char) (lb rb : Bool) (d1 d2 : List Char),
        matchBetween cs = some (lb, d1, d2, rb) →
        d1.all isBoundChar = true ∧ d2.all isBoundChar = true)
    ∧ (∀ (s : String) (lb rb : Bool) (d1 d2 : List Char) (l r : ℚ) (li ri : Bool),
        matchBetween s.data = some (lb, d1, d2, rb) →
        pyFloat d1 = some l → pyFloat d2 = some r →
        interpret_between (.strForm s) Option.none li ri = .ok (l, r, lb, rb))
    ∧ interpret_between (.strForm ("[-2,10)")) Option.none true false
        = .error (Exc.mk ("ValueError") ("Unrecognized between spec '[-2,10)'")
            Option.none) := by
  refine ⟨matchBetween_bounds, ?_, rfl⟩
  intro s lb rb d1 d2 l r li ri hm h1 h2
  simp only [interpret_between, hm, h1, h2]

theorem c10_witness :
    matchBetween (("[2,10)").data) = some (true, ['2'], ['1', '0'], false)
    ∧ (['2'].all isBoundChar = true ∧ ['1', '0'].all isBoundChar = true)
    ∧ interpret_between (.strForm ("[2,10)")) Option.none true false
        = .ok (2, 10, true, false) := by
  refine ⟨rfl, c10_negative_bound_rejected.1 (("[2,10)").data) true false ['2'] ['1', '0'] rfl,
    c10_negative_bound_rejected.2.1 ("[2,10)") true false ['2'] ['1', '0'] 2 10 true false
      rfl (by decide) (by decide)⟩

/-- C3: the four calling conventions of between that denote the same
logical interval agree on every probe, boundaries included: an interval
string whose regex match yields brackets (lb, rb) and bound groups
float-parsing to l and r behaves like the scalar call with bounds l, r and
inclusivity flags (lb, rb); the list form behaves like the scalar call
with both flags true, the tuple form with both flags false. A string the
regex does not match raises a ValueError naming the bad input, and a
single scalar with no second bound is also a ValueError. -/
theorem c3_between_conventions (s : String) (lb rb : Bool) (d1 d2 : List Char) (l r : ℚ)
    (li ri : Bool) (x : ℚ)
    (hm : matchBetween s.data = some (lb, d1, d2, rb))
    (h1 : pyFloat d1 = some l) (h2 : pyFloat d2 = some r) :
    ((betweenPred (.strForm s) Option.none li ri).map (fun p => p x)
        = (betweenPred (.scalar l) (some r) lb rb).map (fun p => p x))
    ∧ (∀ (l' r' : ℚ) (li' ri' : Bool) (y : ℚ),
        ((betweenPred (.listForm l' r') Option.none li' ri').map (fun p => p y)
            = (betweenPred (.scalar l') (some r') true true).map (fun p => p y))
        ∧ ((betweenPred (.tupleForm l' r') Option.none li' ri').map (fun p => p y)
            = (betweenPred (.scalar l') (some r') false false).map (fun p => p y)))
    ∧ (∀ (t : String) (li' ri' : Bool), matchBetween t.data = Option.none →
        betweenPred (.strForm t) Option.none li' ri'
          = .error (Exc.mk ("ValueError") ("Unrecognized between spec '" ++ t ++ "'")
              Option.none))
    ∧ (∀ (y : ℚ) (li' ri' : Bool),
        betweenPred (.scalar y) Option.none li' ri'
          = .error (Exc.mk ("ValueError")
              ("right not specified but first argument isn't str, list, or tuple")
              Option.none)) := by
  refine ⟨?_, ?_, ?_, ?_⟩
  · simp only [betweenPred, interpret_between, hm, h1, h2]
  · intro l' r' li' ri' y
    exact ⟨rfl, rfl⟩
  · intro t li' ri' ht
    simp only [betweenPred, interpret_between, ht]
  · intro y li' ri'
    exact rfl

theorem c3_witness :
    matchBetween (("[2,10)").data) = some (true, ['2'], ['1', '0'], false)
    ∧ ((betweenPred (.strForm ("[2,10)")) Option.none true false).map (fun p => p 2)
        = (betweenPred (.scalar 2) (some 10) true false).map (fun p => p 2)) :=
  ⟨rfl, (c3_between_conventions ("[2,10)") true false ['2'] ['1', '0'] 2 10 true false 2
      rfl (by decide) (by decide)).1⟩
